import Mathlib

/-
Verification development for chapter07-rnn/sentiment_analysis.ipynb.

The notebook wires a PyTorch LSTM sentiment classifier: it builds a vocabulary
with pretrained GloVe vectors, defines an LSTMModel (embedding, LSTM, linear),
and runs a five-epoch train/eval driver.  This file gives a shallow embedding:

- tensor scalars become rationals;
- Python exceptions become an Except monad (PyError);
- in-place mutation (optimizer.step, zero_grad, the statistics accumulators)
  becomes explicit state passing through TrainState and TestState;
- the order of framework side effects is recorded in an explicit event trace;
- framework operations whose internals the notebook never touches (the LSTM
  cell arithmetic, autograd, the Adam update) are threaded as function-valued
  parameters, because train_model and test_model are generic over them,
  exactly as the notebook functions are generic over model and optimizer.
-/

namespace SentimentAnalysis

/-- Python exceptions that the embedded fragments can raise. -/
inductive PyError where
  | runtimeError
  | attributeError
  | zeroDivisionError
  | indexError
  deriving DecidableEq

instance {ε α : Type} [DecidableEq ε] [DecidableEq α] : DecidableEq (Except ε α) := fun a b =>
  match a, b with
  | .ok x, .ok y =>
      if h : x = y then isTrue (by rw [h]) else isFalse (by intro hc; cases hc; exact h rfl)
  | .error x, .error y =>
      if h : x = y then isTrue (by rw [h]) else isFalse (by intro hc; cases hc; exact h rfl)
  | .ok _, .error _ => isFalse (by intro hc; cases hc)
  | .error _, .ok _ => isFalse (by intro hc; cases hc)

/-- The accuracy accumulator of the loops.  In the notebook it starts as the
Python integer 0 and, after the first batch, becomes a PyTorch long tensor,
because int + tensor is a tensor.  The .double() method exists only on the
tensor side. -/
inductive AccValue where
  | pyInt (n : ℤ)
  | tensor (n : ℤ)
  deriving DecidableEq

/-- current_acc += torch.sum(...): adding a tensor to either form yields a tensor. -/
def AccValue.add : AccValue → ℤ → AccValue
  | .pyInt n, k => .tensor (n + k)
  | .tensor n, k => .tensor (n + k)

/-- current_acc.double(): a Python int has no attribute double, so the int
branch raises AttributeError; on a tensor it converts the count to a float. -/
def AccValue.double : AccValue → Except PyError ℚ
  | .pyInt _ => .error PyError.attributeError
  | .tensor n => .ok (n : ℚ)

/-- Python float division by an int: raises ZeroDivisionError when the
denominator is zero. -/
def pyFloatDiv (a : ℚ) (n : ℕ) : Except PyError ℚ :=
  if n = 0 then .error PyError.zeroDivisionError else .ok (a / (n : ℚ))

/-- EMBEDDING_SIZE = 100 (notebook cell 1). -/
def EMBEDDING_SIZE : ℕ := 100

/-- HIDDEN_SIZE = 256 (notebook cell 1). -/
def HIDDEN_SIZE : ℕ := 256

/-- One batch from a BucketIterator: batch.text is the pair of the padded
token-index matrix (sequence-major: one inner list per time step, one entry
per batch element) and the true lengths; batch.label holds the float labels. -/
structure Batch where
  text : List (List ℕ)
  textLengths : List ℕ
  label : List ℚ
  deriving DecidableEq

/-- A data loader: the sequence of batches it yields plus the size of the
underlying dataset (len(data_loader.dataset)). -/
structure DataLoader where
  batches : List Batch
  datasetLen : ℕ
  deriving DecidableEq

/-- Dot product of two rational vectors (the elementwise core of a linear layer). -/
def dotQ (a b : List ℚ) : ℚ := ((a.zip b).map (fun p => p.1 * p.2)).sum

/-- torch.nn.Linear applied to one vector: one output per (weight row, bias entry). -/
def linearApply (weight : List (List ℚ)) (bias : List ℚ) (x : List ℚ) : List ℚ :=
  (weight.zip bias).map (fun wb => dotQ wb.1 x + wb.2)

/-- torch.nn.Embedding lookup of a single token index: row tok of the weight
matrix, raising IndexError when the index is out of range. -/
def lookupRow (weight : List (List ℚ)) (tok : ℕ) : Except PyError (List ℚ) :=
  match weight[tok]? with
  | some v => .ok v
  | none => .error PyError.indexError

/-- Embedding lookup across one time step (one token per batch element). -/
def lookupStep (weight : List (List ℚ)) : List ℕ → Except PyError (List (List ℚ))
  | [] => .ok []
  | tok :: toks =>
    match lookupRow weight tok with
    | .error e => .error e
    | .ok v =>
      match lookupStep weight toks with
      | .error e => .error e
      | .ok vs => .ok (v :: vs)

/-- self.embedding(text_sequence): embedding lookup over the whole
sequence-major token matrix. -/
def embLookup (weight : List (List ℚ)) : List (List ℕ) → Except PyError (List (List (List ℚ)))
  | [] => .ok []
  | step :: steps =>
    match lookupStep weight step with
    | .error e => .error e
    | .ok v =>
      match embLookup weight steps with
      | .error e => .error e
      | .ok vs => .ok (v :: vs)

/-- Boolean check that a length vector is sorted in non-increasing order. -/
def sortedDescending : List ℕ → Bool
  | [] => true
  | [_] => true
  | a :: b :: rest => decide (b ≤ a) && sortedDescending (b :: rest)

/-- The packed representation: the embedded steps together with the per-element
lengths that delimit how far each batch element participates. -/
structure PackedSequence where
  data : List (List (List ℚ))
  batchLengths : List ℕ
  deriving DecidableEq

/-- torch.nn.utils.rnn.pack_padded_sequence with the default
enforce_sorted=True: raises RuntimeError unless the lengths are sorted in
decreasing order, otherwise packs the input with its lengths. -/
def pack_padded_sequence (input : List (List (List ℚ))) (lengths : List ℕ) :
    Except PyError PackedSequence :=
  if sortedDescending lengths then .ok { data := input, batchLengths := lengths }
  else .error PyError.runtimeError

/-- The inputs seen by batch element j of a packed sequence: its embedding
vector at each of its first len time steps. -/
def lstmElementInputs (data : List (List (List ℚ))) (j len : ℕ) : List (List ℚ) :=
  (data.take len).map (fun step => step.getD j [])

/-- self.rnn(packed_sequence) for torch.nn.LSTM: each batch element is run
independently through the recurrent cell from the zero initial state for
exactly its own length, which is the semantics packing buys.  The cell update
itself (gates, sigmoid, tanh, weight matrices) is framework arithmetic the
notebook never opens, so it is taken as the function cellStep.  Returns the
per-element hidden trajectory (the packed output, which the notebook discards)
and the pair of stacked final hidden and cell states. -/
def lstmRun (hiddenSize : ℕ) (cellStep : List ℚ → List ℚ × List ℚ → List ℚ × List ℚ)
    (packed : PackedSequence) :
    List (List (List ℚ)) × (List (List ℚ) × List (List ℚ)) :=
  let h0 : List ℚ := List.replicate hiddenSize 0
  let finals := (packed.batchLengths.enum).map (fun jl =>
    (lstmElementInputs packed.data jl.1 jl.2).foldl (fun hc x => cellStep x hc) (h0, h0))
  let packedOutput := (packed.batchLengths.enum).map (fun jl =>
    ((lstmElementInputs packed.data jl.1 jl.2).scanl
      (fun hc x => cellStep x hc) (h0, h0)).map Prod.fst)
  (packedOutput, (finals.map Prod.fst, finals.map Prod.snd))

/-- The LSTMModel of notebook cell 3, by its parameters: the embedding weight
matrix with its padding index, the LSTM hidden size and cell function, and the
fully connected output layer. -/
structure LSTMModel where
  embeddingWeight : List (List ℚ)
  padIdx : ℕ
  hiddenSize : ℕ
  cellStep : List ℚ → List ℚ × List ℚ → List ℚ × List ℚ
  fcWeight : List (List ℚ)
  fcBias : List ℚ

/-- LSTMModel.forward: embedding lookup, pack_padded_sequence, the LSTM run
discarding packed output and cell state, then the linear layer on the final
hidden state. -/
def LSTMModel.forward (m : LSTMModel) (text_sequence : List (List ℕ)) (text_lengths : List ℕ) :
    Except PyError (List (List ℚ)) :=
  match embLookup m.embeddingWeight text_sequence with
  | .error e => .error e
  | .ok embeddings =>
    match pack_padded_sequence embeddings text_lengths with
    | .error e => .error e
    | .ok packed =>
      let r := lstmRun m.hiddenSize m.cellStep packed
      let hidden := r.2.1
      .ok (hidden.map (linearApply m.fcWeight m.fcBias))

/-- The forward pass as the specification words it: embedding lookup on the
token indices, then the recurrent encoder producing a final hidden state for
each batch element, then the linear layer on that final hidden state.  Stated
independently of the packing step, for comparison with LSTMModel.forward. -/
def forwardSpec (m : LSTMModel) (text_sequence : List (List ℕ)) (text_lengths : List ℕ) :
    Except PyError (List (List ℚ)) :=
  match embLookup m.embeddingWeight text_sequence with
  | .error e => .error e
  | .ok embeddings =>
    let h0 : List ℚ := List.replicate m.hiddenSize 0
    let finalHiddens := (text_lengths.enum).map (fun jl =>
      ((lstmElementInputs embeddings jl.1 jl.2).foldl
        (fun hc x => m.cellStep x hc) (h0, h0)).1)
    .ok (finalHiddens.map (linearApply m.fcWeight m.fcBias))

/-- Notebook cell 4 on the embedding table: copy the pretrained vocabulary
vectors into the weight data, then overwrite the row of the unknown token and
then the row of the padding token with torch.zeros(EMBEDDING_SIZE). -/
def initEmbedding (vectors : List (List ℚ)) (unkIdx padIdx : ℕ) : List (List ℚ) :=
  let w := vectors
  let w := w.set unkIdx (List.replicate EMBEDDING_SIZE 0)
  let w := w.set padIdx (List.replicate EMBEDDING_SIZE 0)
  w

/-- Insert a length into a list kept in non-increasing order. -/
def insertByLenDesc (x : ℕ) : List ℕ → List ℕ
  | [] => [x]
  | y :: ys => if y < x then x :: y :: ys else y :: insertByLenDesc x ys

/-- The length vector of a batch produced with sort_within_batch=True: the
BucketIterator orders the examples of every batch by decreasing length, so the
length vector a batch carries is the sorted rearrangement of the raw lengths. -/
def sortWithinBatch (lengths : List ℕ) : List ℕ :=
  lengths.foldr insertByLenDesc []

/-- One framework side effect of the loop bodies, in the order performed. -/
inductive Event where
  | setTrainMode
  | setEvalMode
  | zeroGradCall
  | forwardPass (gradEnabled : Bool)
  | lossComputation
  | backwardPass
  | optimizerStep
  | statsAccumulation
  | printMetrics (isTrain : Bool) (totalLoss totalAcc : ℚ)
  deriving DecidableEq

/-- The model plus loss function arguments of train_model and test_model, as
functions over an arbitrary parameter type P.  forwardRun is
model(text, text_lengths).squeeze(), lossFn is loss_function(outputs, labels),
sigmoid is torch.sigmoid on one scalar. -/
structure ModelFns (P : Type) where
  forwardRun : P → List (List ℕ) → List ℕ → Except PyError (List ℚ)
  lossFn : List ℚ → List ℚ → Except PyError ℚ
  sigmoid : ℚ → ℚ

/-- The optimizer and autograd operations train_model uses: the zeroed
gradient written by optimizer.zero_grad, the gradient produced by
loss.backward for the current parameters and batch, and the in-place
parameter and optimizer-state update of optimizer.step. -/
structure OptimizerFns (P G O : Type) where
  zeroGrad : G
  backwardRun : P → List (List ℕ) → List ℕ → List ℚ → G
  optStep : O → P → G → O × P

/-- The mutable state train_model touches: the model parameters and training
flag, the gradient buffers, the optimizer state, the two running statistics,
and the trace of framework side effects performed so far. -/
structure TrainState (P G O : Type) where
  params : P
  training : Bool
  grads : G
  optState : O
  currentLoss : ℚ
  currentAcc : AccValue
  trace : List Event
  deriving DecidableEq

/-- The mutable state test_model touches: no gradients and no optimizer. -/
structure TestState (P : Type) where
  params : P
  training : Bool
  currentLoss : ℚ
  currentAcc : AccValue
  trace : List Event
  deriving DecidableEq

/-- The per-batch count torch.sum(torch.round(torch.sigmoid(outputs)).round()
== batch.label.data): how many rounded sigmoid outputs equal their label. -/
def countCorrect (sigmoid : ℚ → ℚ) (outputs labels : List ℚ) : ℤ :=
  ((outputs.zip labels).countP
    (fun p => decide (((round ((round (sigmoid p.1) : ℚ)) : ℤ) : ℚ) = p.2)) : ℤ)

/-- The body of the train_model loop for one batch:
optimizer.zero_grad(); unpack batch.text; under set_grad_enabled(True) the
forward pass and the loss; loss.backward(); optimizer.step(); then the two
statistics updates.  Any exception from the forward or loss call aborts the
body and is returned unchanged. -/
def trainBatchStep {P G O : Type} (M : ModelFns P) (Opt : OptimizerFns P G O)
    (st : TrainState P G O) (batch : Batch) : Except PyError (TrainState P G O) :=
  let st := { st with grads := Opt.zeroGrad, trace := st.trace ++ [Event.zeroGradCall] }
  let text := batch.text
  let text_lengths := batch.textLengths
  match M.forwardRun st.params text text_lengths with
  | .error e => .error e
  | .ok outputs =>
    let st := { st with trace := st.trace ++ [Event.forwardPass true] }
    match M.lossFn outputs batch.label with
    | .error e => .error e
    | .ok lossVal =>
      let st := { st with trace := st.trace ++ [Event.lossComputation] }
      let st := { st with
        grads := Opt.backwardRun st.params text text_lengths batch.label,
        trace := st.trace ++ [Event.backwardPass] }
      let stepped := Opt.optStep st.optState st.params st.grads
      let st := { st with optState := stepped.1, params := stepped.2,
                          trace := st.trace ++ [Event.optimizerStep] }
      let st := { st with
        currentLoss := st.currentLoss + lossVal * (text_lengths.length : ℚ),
        currentAcc := st.currentAcc.add (countCorrect M.sigmoid outputs batch.label),
        trace := st.trace ++ [Event.statsAccumulation] }
      .ok st

/-- The enumerate loop of train_model over the batches of the data loader. -/
def runTrainBatches {P G O : Type} (M : ModelFns P) (Opt : OptimizerFns P G O) :
    TrainState P G O → List Batch → Except PyError (TrainState P G O)
  | st, [] => .ok st
  | st, b :: bs =>
    match trainBatchStep M Opt st b with
    | .error e => .error e
    | .ok st2 => runTrainBatches M Opt st2 bs

/-- What a call of train_model leaves behind: the final state, the two local
totals it computed, and its Python return value. -/
structure TrainOutcome (P G O : Type) where
  st : TrainState P G O
  totalLoss : ℚ
  totalAcc : ℚ
  retval : Option (ℚ × ℚ)
  deriving DecidableEq

/-- The initial state of train_model: model.train(), current_loss = 0.0,
current_acc = 0 as a Python int. -/
def trainInitState {P G O : Type} (params : P) (grads : G) (optState : O) :
    TrainState P G O :=
  { params := params, training := true, grads := grads, optState := optState,
    currentLoss := 0, currentAcc := AccValue.pyInt 0, trace := [Event.setTrainMode] }

/-- train_model (notebook cell 5): set training mode, zero the accumulators,
run the batch loop, then total_loss = current_loss / len(data_loader.dataset),
total_acc = current_acc.double() / len(data_loader.dataset), print the line,
and fall off the end, so Python returns None. -/
def train_model {P G O : Type} (M : ModelFns P) (Opt : OptimizerFns P G O)
    (params : P) (grads : G) (optState : O) (data_loader : DataLoader) :
    Except PyError (TrainOutcome P G O) :=
  match runTrainBatches M Opt (trainInitState params grads optState) data_loader.batches with
  | .error e => .error e
  | .ok st =>
    match pyFloatDiv st.currentLoss data_loader.datasetLen with
    | .error e => .error e
    | .ok totalLoss =>
      match st.currentAcc.double with
      | .error e => .error e
      | .ok accD =>
        let totalAcc := accD / (data_loader.datasetLen : ℚ)
        let st := { st with trace := st.trace ++ [Event.printMetrics true totalLoss totalAcc] }
        .ok { st := st, totalLoss := totalLoss, totalAcc := totalAcc, retval := none }

/-- The body of the test_model loop for one batch: unpack batch.text; under
set_grad_enabled(False) the forward pass and the loss; then the same two
statistics updates as train_model.  No gradient, no optimizer call. -/
def testBatchStep {P : Type} (M : ModelFns P) (st : TestState P) (batch : Batch) :
    Except PyError (TestState P) :=
  let text := batch.text
  let text_lengths := batch.textLengths
  match M.forwardRun st.params text text_lengths with
  | .error e => .error e
  | .ok outputs =>
    let st := { st with trace := st.trace ++ [Event.forwardPass false] }
    match M.lossFn outputs batch.label with
    | .error e => .error e
    | .ok lossVal =>
      let st := { st with trace := st.trace ++ [Event.lossComputation] }
      let st := { st with
        currentLoss := st.currentLoss + lossVal * (text_lengths.length : ℚ),
        currentAcc := st.currentAcc.add (countCorrect M.sigmoid outputs batch.label),
        trace := st.trace ++ [Event.statsAccumulation] }
      .ok st

/-- The enumerate loop of test_model over the batches of the data loader. -/
def runTestBatches {P : Type} (M : ModelFns P) :
    TestState P → List Batch → Except PyError (TestState P)
  | st, [] => .ok st
  | st, b :: bs =>
    match testBatchStep M st b with
    | .error e => .error e
    | .ok st2 => runTestBatches M st2 bs

/-- What a call of test_model leaves behind. -/
structure TestOutcome (P : Type) where
  st : TestState P
  totalLoss : ℚ
  totalAcc : ℚ
  retval : Option (ℚ × ℚ)
  deriving DecidableEq

/-- The initial state of test_model: model.eval(), zeroed accumulators. -/
def testInitState {P : Type} (params : P) : TestState P :=
  { params := params, training := false,
    currentLoss := 0, currentAcc := AccValue.pyInt 0, trace := [Event.setEvalMode] }

/-- test_model (notebook cell 6): set evaluation mode, zero the accumulators,
run the batch loop, compute the same two totals as train_model, print the
line, and return the pair (total_loss, total_acc). -/
def test_model {P : Type} (M : ModelFns P) (params : P) (data_loader : DataLoader) :
    Except PyError (TestOutcome P) :=
  match runTestBatches M (testInitState params) data_loader.batches with
  | .error e => .error e
  | .ok st =>
    match pyFloatDiv st.currentLoss data_loader.datasetLen with
    | .error e => .error e
    | .ok totalLoss =>
      match st.currentAcc.double with
      | .error e => .error e
      | .ok accD =>
        let totalAcc := accD / (data_loader.datasetLen : ℚ)
        let st := { st with trace := st.trace ++ [Event.printMetrics false totalLoss totalAcc] }
        .ok { st := st, totalLoss := totalLoss, totalAcc := totalAcc,
              retval := some (totalLoss, totalAcc) }

/-- The top-level side effects of notebook cell 7. -/
inductive DriverEvent where
  | makeOptimizer
  | makeLossFunction
  | modelToDevice
  | epochHeader (n : ℕ)
  | trainCall (loader : DataLoader)
  | testCall (loader : DataLoader)
  deriving DecidableEq

/-- What the driver leaves behind: final parameters, gradient buffers and
optimizer state, its own event list, and the pair test_model returned in each
epoch. -/
structure DriverResult (P G O : Type) where
  params : P
  grads : G
  optState : O
  events : List DriverEvent
  epochResults : List (ℚ × ℚ)
  deriving DecidableEq

/-- The epoch loop of the driver: for each remaining epoch index, print the
header, call train_model on the train iterator, then call test_model on the
test iterator, threading the mutated parameters, gradients and optimizer
state to the next epoch.  An exception from either call ends the loop. -/
def runEpochs {P G O : Type} (M : ModelFns P) (Opt : OptimizerFns P G O)
    (train_iter test_iter : DataLoader) :
    List ℕ → P → G → O → List DriverEvent → List (ℚ × ℚ) →
    Except PyError (DriverResult P G O)
  | [], p, g, o, evs, res =>
    .ok { params := p, grads := g, optState := o, events := evs, epochResults := res }
  | e :: rest, p, g, o, evs, res =>
    let evs := evs ++ [DriverEvent.epochHeader e, DriverEvent.trainCall train_iter]
    match train_model M Opt p g o train_iter with
    | .error err => .error err
    | .ok tr =>
      let evs := evs ++ [DriverEvent.testCall test_iter]
      match test_model M tr.st.params test_iter with
      | .error err => .error err
      | .ok te =>
        runEpochs M Opt train_iter test_iter rest te.st.params tr.st.grads tr.st.optState
          evs (res ++ [(te.totalLoss, te.totalAcc)])

/-- The driver (notebook cell 7): instantiate the Adam optimizer from the
model parameters, instantiate the BCEWithLogitsLoss loss function, move the
model to the device, then run for epoch in range(5). -/
def driver {P G O : Type} (M : ModelFns P) (Opt : OptimizerFns P G O)
    (adamInit : O) (params : P) (grads : G) (train_iter test_iter : DataLoader) :
    Except PyError (DriverResult P G O) :=
  runEpochs M Opt train_iter test_iter (List.range 5) params grads adamInit
    [DriverEvent.makeOptimizer, DriverEvent.makeLossFunction, DriverEvent.modelToDevice] []

/-- The events one successful train_model batch body appends, in order. -/
def trainPerBatchEvents : List Event :=
  [Event.zeroGradCall, Event.forwardPass true, Event.lossComputation,
   Event.backwardPass, Event.optimizerStep, Event.statsAccumulation]

/-- The events one successful test_model batch body appends, in order. -/
def testPerBatchEvents : List Event :=
  [Event.forwardPass false, Event.lossComputation, Event.statsAccumulation]

/-- Agreement of a train-loop state and a test-loop state on everything the
final metrics depend on. -/
def statesAgree {P G O : Type} (a : TrainState P G O) (b : TestState P) : Prop :=
  a.params = b.params ∧ a.currentLoss = b.currentLoss ∧ a.currentAcc = b.currentAcc

/-- Agreement of the two loop results: both fail with the same exception or
both succeed with agreeing states. -/
def resultsAgree {P G O : Type} :
    Except PyError (TrainState P G O) → Except PyError (TestState P) → Prop
  | .ok a, .ok b => statesAgree a b
  | .error e1, .error e2 => e1 = e2
  | _, _ => False

/-- A trivial model over unit parameters, used for concrete evaluations. -/
def unitModelFns : ModelFns Unit :=
  { forwardRun := fun _ _ _ => .ok [], lossFn := fun _ _ => .ok 0, sigmoid := fun x => x }

/-- A model over unit parameters whose forward pass always raises. -/
def failingModelFns : ModelFns Unit :=
  { forwardRun := fun _ _ _ => .error PyError.runtimeError,
    lossFn := fun _ _ => .ok 0, sigmoid := fun x => x }

/-- A trivial optimizer over unit gradient and unit optimizer state. -/
def unitOptimizerFns : OptimizerFns Unit Unit Unit :=
  { zeroGrad := (), backwardRun := fun _ _ _ _ => (), optStep := fun _ _ _ => ((), ()) }

/-- An empty batch. -/
def emptyBatch : Batch := { text := [], textLengths := [], label := [] }

/-- A loader yielding one empty batch over a one-element dataset. -/
def oneBatchLoader : DataLoader := { batches := [emptyBatch], datasetLen := 1 }

/-- Three concrete pretrained rows of dimension 100, for concrete evaluations. -/
def sampleVectors : List (List ℚ) :=
  [List.replicate 100 1, List.replicate 100 2, List.replicate 100 3]

/-- A concrete tiny LSTMModel, for concrete evaluations. -/
def tinyLSTMModel : LSTMModel :=
  { embeddingWeight := [[0]], padIdx := 0, hiddenSize := 1,
    cellStep := fun _ hc => hc, fcWeight := [[1]], fcBias := [0] }

/-- The outcome of test_model on the unit model and the one-batch loader. -/
def unitTestOutcome : TestOutcome Unit :=
  { st := { params := (), training := false, currentLoss := 0,
            currentAcc := AccValue.tensor 0,
            trace := [Event.setEvalMode, Event.forwardPass false, Event.lossComputation,
                      Event.statsAccumulation, Event.printMetrics false 0 0] },
    totalLoss := 0, totalAcc := 0, retval := some (0, 0) }

/-- The outcome of train_model on the unit model, the unit optimizer and the
one-batch loader. -/
def unitTrainOutcome : TrainOutcome Unit Unit Unit :=
  { st := { params := (), training := true, grads := (), optState := (),
            currentLoss := 0, currentAcc := AccValue.tensor 0,
            trace := [Event.setTrainMode, Event.zeroGradCall, Event.forwardPass true,
                      Event.lossComputation, Event.backwardPass, Event.optimizerStep,
                      Event.statsAccumulation, Event.printMetrics true 0 0] },
    totalLoss := 0, totalAcc := 0, retval := none }

/-- The driver events on the one-batch loader used as both iterators. -/
def unitDriverEvents : List DriverEvent :=
  [DriverEvent.makeOptimizer, DriverEvent.makeLossFunction, DriverEvent.modelToDevice,
   DriverEvent.epochHeader 0, DriverEvent.trainCall oneBatchLoader,
   DriverEvent.testCall oneBatchLoader,
   DriverEvent.epochHeader 1, DriverEvent.trainCall oneBatchLoader,
   DriverEvent.testCall oneBatchLoader,
   DriverEvent.epochHeader 2, DriverEvent.trainCall oneBatchLoader,
   DriverEvent.testCall oneBatchLoader,
   DriverEvent.epochHeader 3, DriverEvent.trainCall oneBatchLoader,
   DriverEvent.testCall oneBatchLoader,
   DriverEvent.epochHeader 4, DriverEvent.trainCall oneBatchLoader,
   DriverEvent.testCall oneBatchLoader]

/-- The result of the driver on the unit model with the one-batch loader as
both iterators. -/
def unitDriverResult : DriverResult Unit Unit Unit :=
  { params := (), grads := (), optState := (), events := unitDriverEvents,
    epochResults := [(0, 0), (0, 0), (0, 0), (0, 0), (0, 0)] }

/-- Characterization of a successful train_model call in terms of its three
stages: the batch loop, the loss division, and the accuracy conversion. -/
theorem train_model_ok_iff {P G O : Type} (M : ModelFns P) (Opt : OptimizerFns P G O)
    (p : P) (g : G) (o : O) (loader : DataLoader) (r : TrainOutcome P G O) :
    train_model M Opt p g o loader = .ok r ↔
    ∃ st tl aD,
      runTrainBatches M Opt (trainInitState p g o) loader.batches = .ok st ∧
      pyFloatDiv st.currentLoss loader.datasetLen = .ok tl ∧
      st.currentAcc.double = .ok aD ∧
      r = { st := { st with trace :=
              st.trace ++ [Event.printMetrics true tl (aD / (loader.datasetLen : ℚ))] },
            totalLoss := tl, totalAcc := aD / (loader.datasetLen : ℚ), retval := none } := by
  unfold train_model
  constructor
  · intro h
    cases h1 : runTrainBatches M Opt (trainInitState p g o) loader.batches with
    | error e => rw [h1] at h; cases h
    | ok st =>
      rw [h1] at h
      dsimp only at h
      cases h2 : pyFloatDiv st.currentLoss loader.datasetLen with
      | error e => rw [h2] at h; cases h
      | ok tl =>
        rw [h2] at h
        dsimp only at h
        cases h3 : st.currentAcc.double with
        | error e => rw [h3] at h; cases h
        | ok aD =>
          rw [h3] at h
          dsimp only at h
          cases h
          exact ⟨st, tl, aD, rfl, h2, h3, rfl⟩
  · rintro ⟨st, tl, aD, h1, h2, h3, hr⟩
    rw [h1]
    dsimp only
    rw [h2]
    dsimp only
    rw [h3]
    dsimp only
    rw [hr]

/-- Characterization of a successful test_model call. -/
theorem test_model_ok_iff {P : Type} (M : ModelFns P) (p : P) (loader : DataLoader)
    (r : TestOutcome P) :
    test_model M p loader = .ok r ↔
    ∃ st tl aD,
      runTestBatches M (testInitState p) loader.batches = .ok st ∧
      pyFloatDiv st.currentLoss loader.datasetLen = .ok tl ∧
      st.currentAcc.double = .ok aD ∧
      r = { st := { st with trace :=
              st.trace ++ [Event.printMetrics false tl (aD / (loader.datasetLen : ℚ))] },
            totalLoss := tl, totalAcc := aD / (loader.datasetLen : ℚ),
            retval := some (tl, aD / (loader.datasetLen : ℚ)) } := by
  unfold test_model
  constructor
  · intro h
    cases h1 : runTestBatches M (testInitState p) loader.batches with
    | error e => rw [h1] at h; cases h
    | ok st =>
      rw [h1] at h
      dsimp only at h
      cases h2 : pyFloatDiv st.currentLoss loader.datasetLen with
      | error e => rw [h2] at h; cases h
      | ok tl =>
        rw [h2] at h
        dsimp only at h
        cases h3 : st.currentAcc.double with
        | error e => rw [h3] at h; cases h
        | ok aD =>
          rw [h3] at h
          dsimp only at h
          cases h
          exact ⟨st, tl, aD, rfl, h2, h3, rfl⟩
  · rintro ⟨st, tl, aD, h1, h2, h3, hr⟩
    rw [h1]
    dsimp only
    rw [h2]
    dsimp only
    rw [h3]
    dsimp only
    rw [hr]

/-- A train batch body whose forward pass raises returns that exception unchanged. -/
theorem trainBatchStep_error_of_forward {P G O : Type} (M : ModelFns P)
    (Opt : OptimizerFns P G O) (st : TrainState P G O) (b : Batch) (e : PyError)
    (hf : M.forwardRun st.params b.text b.textLengths = .error e) :
    trainBatchStep M Opt st b = .error e := by
  unfold trainBatchStep
  dsimp only
  rw [hf]

/-- A successful train batch body appends exactly the six per-batch events in order. -/
theorem trainBatchStep_ok_trace {P G O : Type} (M : ModelFns P) (Opt : OptimizerFns P G O)
    (st st2 : TrainState P G O) (b : Batch) (h : trainBatchStep M Opt st b = .ok st2) :
    st2.trace = st.trace ++ trainPerBatchEvents := by
  unfold trainBatchStep at h
  dsimp only at h
  cases hf : M.forwardRun st.params b.text b.textLengths with
  | error e => rw [hf] at h; cases h
  | ok outputs =>
    rw [hf] at h
    dsimp only at h
    cases hl : M.lossFn outputs b.label with
    | error e => rw [hl] at h; cases h
    | ok lossVal =>
      rw [hl] at h
      dsimp only at h
      cases h
      simp [trainPerBatchEvents]

/-- The train batch loop over an appended list runs the first part first. -/
theorem runTrainBatches_append_ok {P G O : Type} (M : ModelFns P) (Opt : OptimizerFns P G O)
    (l1 l2 : List Batch) : ∀ (st st1 : TrainState P G O),
    runTrainBatches M Opt st l1 = .ok st1 →
    runTrainBatches M Opt st (l1 ++ l2) = runTrainBatches M Opt st1 l2 := by
  induction l1 with
  | nil => intro st st1 h; cases h; rfl
  | cons b bs ih =>
    intro st st1 h
    rw [List.cons_append]
    simp only [runTrainBatches] at h ⊢
    cases hs : trainBatchStep M Opt st b with
    | error e => rw [hs] at h; cases h
    | ok stm =>
      simp only [hs] at h ⊢
      exact ih stm st1 h

/-- A step failure at the head of the remaining batches aborts the train loop
with the same exception. -/
theorem runTrainBatches_error_of_step {P G O : Type} (M : ModelFns P)
    (Opt : OptimizerFns P G O) (st : TrainState P G O) (b : Batch) (bs : List Batch)
    (e : PyError) (hs : trainBatchStep M Opt st b = .error e) :
    runTrainBatches M Opt st (b :: bs) = .error e := by
  unfold runTrainBatches
  rw [hs]

/-- A successful train batch loop appends the six-event pattern once per batch. -/
theorem runTrainBatches_ok_trace {P G O : Type} (M : ModelFns P) (Opt : OptimizerFns P G O) :
    ∀ (bs : List Batch) (st st2 : TrainState P G O),
    runTrainBatches M Opt st bs = .ok st2 →
    st2.trace = st.trace ++ (List.replicate bs.length trainPerBatchEvents).flatten := by
  intro bs
  induction bs with
  | nil => intro st st2 h; cases h; simp
  | cons b rest ih =>
    intro st st2 h
    unfold runTrainBatches at h
    cases hs : trainBatchStep M Opt st b with
    | error e => rw [hs] at h; cases h
    | ok stm =>
      rw [hs] at h
      rw [ih stm st2 h, trainBatchStep_ok_trace M Opt st stm b hs]
      simp [List.replicate_succ]

/-- A test batch body whose forward pass raises returns that exception unchanged. -/
theorem testBatchStep_error_of_forward {P : Type} (M : ModelFns P) (st : TestState P)
    (b : Batch) (e : PyError)
    (hf : M.forwardRun st.params b.text b.textLengths = .error e) :
    testBatchStep M st b = .error e := by
  unfold testBatchStep
  dsimp only
  rw [hf]

/-- A successful test batch body leaves the parameters untouched and appends
exactly the three per-batch events in order. -/
theorem testBatchStep_ok_params_trace {P : Type} (M : ModelFns P) (st st2 : TestState P)
    (b : Batch) (h : testBatchStep M st b = .ok st2) :
    st2.params = st.params ∧ st2.trace = st.trace ++ testPerBatchEvents := by
  unfold testBatchStep at h
  dsimp only at h
  cases hf : M.forwardRun st.params b.text b.textLengths with
  | error e => rw [hf] at h; cases h
  | ok outputs =>
    rw [hf] at h
    dsimp only at h
    cases hl : M.lossFn outputs b.label with
    | error e => rw [hl] at h; cases h
    | ok lossVal =>
      rw [hl] at h
      dsimp only at h
      cases h
      exact ⟨rfl, by simp [testPerBatchEvents]⟩

/-- The test batch loop over an appended list runs the first part first. -/
theorem runTestBatches_append_ok {P : Type} (M : ModelFns P) (l1 l2 : List Batch) :
    ∀ (st st1 : TestState P),
    runTestBatches M st l1 = .ok st1 →
    runTestBatches M st (l1 ++ l2) = runTestBatches M st1 l2 := by
  induction l1 with
  | nil => intro st st1 h; cases h; rfl
  | cons b bs ih =>
    intro st st1 h
    rw [List.cons_append]
    simp only [runTestBatches] at h ⊢
    cases hs : testBatchStep M st b with
    | error e => rw [hs] at h; cases h
    | ok stm =>
      simp only [hs] at h ⊢
      exact ih stm st1 h

/-- A step failure at the head of the remaining batches aborts the test loop
with the same exception. -/
theorem runTestBatches_error_of_step {P : Type} (M : ModelFns P) (st : TestState P)
    (b : Batch) (bs : List Batch) (e : PyError) (hs : testBatchStep M st b = .error e) :
    runTestBatches M st (b :: bs) = .error e := by
  unfold runTestBatches
  rw [hs]

/-- A successful test batch loop preserves the parameters and appends the
three-event pattern once per batch. -/
theorem runTestBatches_ok_params_trace {P : Type} (M : ModelFns P) :
    ∀ (bs : List Batch) (st st2 : TestState P),
    runTestBatches M st bs = .ok st2 →
    st2.params = st.params ∧
    st2.trace = st.trace ++ (List.replicate bs.length testPerBatchEvents).flatten := by
  intro bs
  induction bs with
  | nil => intro st st2 h; cases h; simp
  | cons b rest ih =>
    intro st st2 h
    unfold runTestBatches at h
    cases hs : testBatchStep M st b with
    | error e => rw [hs] at h; cases h
    | ok stm =>
      rw [hs] at h
      obtain ⟨hp1, ht1⟩ := testBatchStep_ok_params_trace M st stm b hs
      obtain ⟨hp2, ht2⟩ := ih stm st2 h
      constructor
      · rw [hp2, hp1]
      · rw [ht2, ht1]
        simp [List.replicate_succ]

/-- Claim C1: for every model, loss function and data loader, test_model runs
the forward computation with gradient tracking disabled (every forward-pass
event in its trace carries gradEnabled = false) and returns with the model
parameters exactly equal to the parameters it was called with. -/
theorem test_model_preserves_params {P : Type} (M : ModelFns P) (p : P)
    (loader : DataLoader) (r : TestOutcome P) (h : test_model M p loader = .ok r) :
    r.st.params = p
    ∧ r.st.trace = Event.setEvalMode ::
        ((List.replicate loader.batches.length testPerBatchEvents).flatten
          ++ [Event.printMetrics false r.totalLoss r.totalAcc])
    ∧ ∀ gflag : Bool, Event.forwardPass gflag ∈ r.st.trace → gflag = false := by
  obtain ⟨st, tl, aD, h1, h2, h3, hr⟩ := (test_model_ok_iff M p loader r).1 h
  obtain ⟨hp, ht⟩ := runTestBatches_ok_params_trace M loader.batches (testInitState p) st h1
  have hrp : r.st.params = st.params := by rw [hr]
  have hrt : r.st.trace
      = st.trace ++ [Event.printMetrics false tl (aD / (loader.datasetLen : ℚ))] := by
    rw [hr]
  have hrl : r.totalLoss = tl := by rw [hr]
  have hra : r.totalAcc = aD / (loader.datasetLen : ℚ) := by rw [hr]
  have htr : r.st.trace = Event.setEvalMode ::
      ((List.replicate loader.batches.length testPerBatchEvents).flatten
        ++ [Event.printMetrics false r.totalLoss r.totalAcc]) := by
    rw [hrt, ht, hrl, hra]
    simp [testInitState]
  refine ⟨?_, htr, ?_⟩
  · rw [hrp, hp]
    rfl
  · intro gflag hg
    rw [htr] at hg
    simp [testPerBatchEvents, List.mem_flatten, List.mem_replicate] at hg
    aesop

/-- Witness for claim C1: the unit model on the one-batch loader. -/
theorem test_model_preserves_params_witness :
    (test_model unitModelFns () oneBatchLoader = .ok unitTestOutcome)
    ∧ unitTestOutcome.st.params = () := by
  have h : test_model unitModelFns () oneBatchLoader = .ok unitTestOutcome := by
    simp only [test_model, runTestBatches, testBatchStep, testInitState, unitModelFns,
      oneBatchLoader, emptyBatch, countCorrect, AccValue.add, AccValue.double,
      pyFloatDiv, unitTestOutcome]
    norm_num
  exact ⟨h, (test_model_preserves_params unitModelFns () oneBatchLoader unitTestOutcome h).1⟩

/-- Claim C2: for every batch of a successful train_model call the per-batch
side effects happen in exactly the order zero gradients, forward pass, loss
computation, backward pass, optimizer step, statistics accumulation: the final
trace is the per-batch six-event pattern repeated once per batch between the
initial mode switch and the final print. -/
theorem train_model_batch_order {P G O : Type} (M : ModelFns P) (Opt : OptimizerFns P G O)
    (p : P) (g : G) (o : O) (loader : DataLoader) (r : TrainOutcome P G O)
    (h : train_model M Opt p g o loader = .ok r) :
    r.st.trace = Event.setTrainMode ::
      ((List.replicate loader.batches.length trainPerBatchEvents).flatten
        ++ [Event.printMetrics true r.totalLoss r.totalAcc]) := by
  obtain ⟨st, tl, aD, h1, h2, h3, hr⟩ := (train_model_ok_iff M Opt p g o loader r).1 h
  have ht := runTrainBatches_ok_trace M Opt loader.batches (trainInitState p g o) st h1
  have hrt : r.st.trace
      = st.trace ++ [Event.printMetrics true tl (aD / (loader.datasetLen : ℚ))] := by
    rw [hr]
  have hrl : r.totalLoss = tl := by rw [hr]
  have hra : r.totalAcc = aD / (loader.datasetLen : ℚ) := by rw [hr]
  rw [hrt, ht, hrl, hra]
  simp [trainInitState]

/-- Witness for claim C2: the unit model and optimizer on the one-batch loader. -/
theorem train_model_batch_order_witness :
    (train_model unitModelFns unitOptimizerFns () () () oneBatchLoader = .ok unitTrainOutcome)
    ∧ unitTrainOutcome.st.trace = Event.setTrainMode ::
        ((List.replicate oneBatchLoader.batches.length trainPerBatchEvents).flatten
          ++ [Event.printMetrics true unitTrainOutcome.totalLoss unitTrainOutcome.totalAcc]) := by
  have h : train_model unitModelFns unitOptimizerFns () () () oneBatchLoader
      = .ok unitTrainOutcome := by
    simp only [train_model, runTrainBatches, trainBatchStep, trainInitState, unitModelFns,
      unitOptimizerFns, oneBatchLoader, emptyBatch, countCorrect, AccValue.add,
      AccValue.double, pyFloatDiv, unitTrainOutcome]
    norm_num
  exact ⟨h, train_model_batch_order unitModelFns unitOptimizerFns () () ()
    oneBatchLoader unitTrainOutcome h⟩

/-- Claim C8: train_model has no return statement, so a successful call
returns None and its totals are only printed, while a successful test_model
call returns exactly the pair (total_loss, total_acc). -/
theorem train_returns_none_test_returns_pair {P G O : Type} (M : ModelFns P)
    (Opt : OptimizerFns P G O) (p : P) (g : G) (o : O) (loader : DataLoader) :
    (∀ r : TrainOutcome P G O, train_model M Opt p g o loader = .ok r → r.retval = none)
    ∧ (∀ r : TestOutcome P, test_model M p loader = .ok r →
        r.retval = some (r.totalLoss, r.totalAcc)) := by
  constructor
  · intro r h
    obtain ⟨st, tl, aD, h1, h2, h3, hr⟩ := (train_model_ok_iff M Opt p g o loader r).1 h
    rw [hr]
  · intro r h
    obtain ⟨st, tl, aD, h1, h2, h3, hr⟩ := (test_model_ok_iff M p loader r).1 h
    rw [hr]

/-- Witness for claim C8: both loops on the one-batch loader. -/
theorem train_returns_none_test_returns_pair_witness :
    (train_model unitModelFns unitOptimizerFns () () () oneBatchLoader = .ok unitTrainOutcome)
    ∧ unitTrainOutcome.retval = none
    ∧ unitTestOutcome.retval = some (unitTestOutcome.totalLoss, unitTestOutcome.totalAcc) := by
  have htr : train_model unitModelFns unitOptimizerFns () () () oneBatchLoader
      = .ok unitTrainOutcome := by
    simp only [train_model, runTrainBatches, trainBatchStep, trainInitState, unitModelFns,
      unitOptimizerFns, oneBatchLoader, emptyBatch, countCorrect, AccValue.add,
      AccValue.double, pyFloatDiv, unitTrainOutcome]
    norm_num
  have hte : test_model unitModelFns () oneBatchLoader = .ok unitTestOutcome := by
    simp only [test_model, runTestBatches, testBatchStep, testInitState, unitModelFns,
      oneBatchLoader, emptyBatch, countCorrect, AccValue.add, AccValue.double,
      pyFloatDiv, unitTestOutcome]
    norm_num
  refine ⟨htr, ?_, ?_⟩
  · exact (train_returns_none_test_returns_pair unitModelFns unitOptimizerFns
      () () () oneBatchLoader).1 unitTrainOutcome htr
  · exact (train_returns_none_test_returns_pair unitModelFns unitOptimizerFns
      () () () oneBatchLoader).2 unitTestOutcome hte

/-- Claim C10: on an empty data loader neither loop reports zero metrics; both
raise.  With an empty underlying dataset the loss division raises
ZeroDivisionError first; with a nonempty dataset the accuracy accumulator is
still the Python int 0 and current_acc.double() raises AttributeError. -/
theorem empty_loader_raises {P G O : Type} (M : ModelFns P) (Opt : OptimizerFns P G O)
    (p : P) (g : G) (o : O) (loader : DataLoader) (hb : loader.batches = []) :
    (loader.datasetLen = 0 →
      train_model M Opt p g o loader = .error PyError.zeroDivisionError
      ∧ test_model M p loader = .error PyError.zeroDivisionError)
    ∧ (loader.datasetLen ≠ 0 →
      train_model M Opt p g o loader = .error PyError.attributeError
      ∧ test_model M p loader = .error PyError.attributeError) := by
  constructor
  · intro hn
    constructor
    · simp [train_model, hb, runTrainBatches, trainInitState, pyFloatDiv, hn]
    · simp [test_model, hb, runTestBatches, testInitState, pyFloatDiv, hn]
  · intro hn
    constructor
    · simp [train_model, hb, runTrainBatches, trainInitState, pyFloatDiv, hn,
        AccValue.double]
    · simp [test_model, hb, runTestBatches, testInitState, pyFloatDiv, hn,
        AccValue.double]

/-- Witness for claim C10: concrete empty loaders with dataset sizes 0 and 1. -/
theorem empty_loader_raises_witness :
    (train_model unitModelFns unitOptimizerFns () () ()
        { batches := [], datasetLen := 0 } = .error PyError.zeroDivisionError)
    ∧ (test_model unitModelFns ()
        { batches := [], datasetLen := 0 } = .error PyError.zeroDivisionError)
    ∧ (train_model unitModelFns unitOptimizerFns () () ()
        { batches := [], datasetLen := 1 } = .error PyError.attributeError)
    ∧ (test_model unitModelFns ()
        { batches := [], datasetLen := 1 } = .error PyError.attributeError) := by
  have h0 := (empty_loader_raises unitModelFns unitOptimizerFns () () ()
    { batches := [], datasetLen := 0 } rfl).1 rfl
  have h1 := (empty_loader_raises unitModelFns unitOptimizerFns () () ()
    { batches := [], datasetLen := 1 } rfl).2 (by decide)
  exact ⟨h0.1, h0.2, h1.1, h1.2⟩

/-- Claim C5: after the cell-4 initialization the embedding table holds the
pretrained 100-dimensional vectors copied in, except that the rows at the
unknown-token index and at the padding-token index are the zero vector of
dimension 100. -/
theorem initEmbedding_zeroes_special_rows (vectors : List (List ℚ)) (unkIdx padIdx : ℕ)
    (hu : unkIdx < vectors.length) (hp : padIdx < vectors.length)
    (hdim : ∀ v ∈ vectors, v.length = 100) :
    (initEmbedding vectors unkIdx padIdx)[padIdx]? = some (List.replicate 100 (0 : ℚ))
    ∧ (initEmbedding vectors unkIdx padIdx)[unkIdx]? = some (List.replicate 100 (0 : ℚ))
    ∧ (∀ i : ℕ, i ≠ unkIdx → i ≠ padIdx →
        (initEmbedding vectors unkIdx padIdx)[i]? = vectors[i]?)
    ∧ ∀ v ∈ initEmbedding vectors unkIdx padIdx, v.length = 100 := by
  unfold initEmbedding
  have hz : (List.replicate EMBEDDING_SIZE (0 : ℚ)) = List.replicate 100 (0 : ℚ) := rfl
  refine ⟨?_, ?_, ?_, ?_⟩
  · rw [hz, List.getElem?_set_self]
    rw [List.length_set]
    exact hp
  · rw [hz]
    by_cases hup : unkIdx = padIdx
    · rw [hup, List.getElem?_set_self]
      rw [List.length_set]
      exact hp
    · rw [List.getElem?_set_ne (fun hc => hup hc.symm), List.getElem?_set_self hu]
  · intro i hiu hip
    rw [List.getElem?_set_ne (fun hc => hip hc.symm),
      List.getElem?_set_ne (fun hc => hiu hc.symm)]
  · intro v hv
    rcases List.mem_or_eq_of_mem_set hv with hv2 | hv2
    · rcases List.mem_or_eq_of_mem_set hv2 with hv3 | hv3
      · exact hdim v hv3
      · rw [hv3]; rfl
    · rw [hv2]; rfl

/-- Witness for claim C5: three 100-dimensional rows, unknown index 0,
padding index 1. -/
theorem initEmbedding_zeroes_special_rows_witness :
    (0 < sampleVectors.length ∧ 1 < sampleVectors.length
      ∧ ∀ v ∈ sampleVectors, v.length = 100)
    ∧ (initEmbedding sampleVectors 0 1)[1]? = some (List.replicate 100 (0 : ℚ))
    ∧ (initEmbedding sampleVectors 0 1)[0]? = some (List.replicate 100 (0 : ℚ))
    ∧ (initEmbedding sampleVectors 0 1)[2]? = sampleVectors[2]? := by
  have hu : 0 < sampleVectors.length := by decide
  have hp : 1 < sampleVectors.length := by decide
  have hdim : ∀ v ∈ sampleVectors, v.length = 100 := by decide
  obtain ⟨h1, h2, h3, _⟩ := initEmbedding_zeroes_special_rows sampleVectors 0 1 hu hp hdim
  exact ⟨⟨hu, hp, hdim⟩, h1, h2, h3 2 (by decide) (by decide)⟩

/-- Inserting into a non-increasing list keeps it non-increasing. -/
theorem sortedDescending_insertByLenDesc (x : ℕ) :
    ∀ l : List ℕ, sortedDescending l = true → sortedDescending (insertByLenDesc x l) = true := by
  intro l
  induction l with
  | nil => intro _; rfl
  | cons y ys ih =>
    intro h
    unfold insertByLenDesc
    by_cases hxy : y < x
    · rw [if_pos hxy]
      unfold sortedDescending
      simp [h, Nat.le_of_lt hxy]
    · rw [if_neg hxy]
      have hys : sortedDescending ys = true := by
        cases ys with
        | nil => rfl
        | cons z zs =>
          have h2 := h
          unfold sortedDescending at h2
          simp only [Bool.and_eq_true] at h2
          exact h2.2
      have hins := ih hys
      cases ys with
      | nil =>
        simp [insertByLenDesc, sortedDescending, Nat.le_of_not_lt hxy]
      | cons z zs =>
        have hyz : z ≤ y := by
          have h2 := h
          unfold sortedDescending at h2
          simp only [Bool.and_eq_true, decide_eq_true_eq] at h2
          exact h2.1
        by_cases hzx : z < x
        · have hrw : insertByLenDesc x (z :: zs) = x :: z :: zs := by
            simp only [insertByLenDesc]
            rw [if_pos hzx]
          rw [hrw]
          rw [hrw] at hins
          unfold sortedDescending
          simp [hins, Nat.le_of_not_lt hxy]
        · have hrw : insertByLenDesc x (z :: zs) = z :: insertByLenDesc x zs := by
            simp only [insertByLenDesc]
            rw [if_neg hzx]
          rw [hrw]
          rw [hrw] at hins
          unfold sortedDescending
          simp [hyz, hins]

/-- The length vector of a batch built with sort_within_batch=True is sorted
in non-increasing order. -/
theorem sortedDescending_sortWithinBatch (lengths : List ℕ) :
    sortedDescending (sortWithinBatch lengths) = true := by
  unfold sortWithinBatch
  induction lengths with
  | nil => rfl
  | cons a l ih =>
    rw [List.foldr_cons]
    exact sortedDescending_insertByLenDesc a _ ih

/-- An in-range time step of token indices looks up successfully. -/
theorem lookupStep_ok (weight : List (List ℚ)) :
    ∀ step : List ℕ, (∀ tok ∈ step, tok < weight.length) →
    ∃ v, lookupStep weight step = .ok v := by
  intro step
  induction step with
  | nil => intro _; exact ⟨[], rfl⟩
  | cons t ts ih =>
    intro h
    have ht : t < weight.length := h t (by simp)
    obtain ⟨vs, hvs⟩ := ih (fun tok htok => h tok (by simp [htok]))
    refine ⟨weight[t] :: vs, ?_⟩
    have hrow : lookupRow weight t = .ok weight[t] := by
      unfold lookupRow
      rw [List.getElem?_eq_getElem ht]
    simp only [lookupStep, hrow, hvs]

/-- An in-range token matrix embeds successfully. -/
theorem embLookup_ok (weight : List (List ℚ)) :
    ∀ text : List (List ℕ), (∀ step ∈ text, ∀ tok ∈ step, tok < weight.length) →
    ∃ embs, embLookup weight text = .ok embs := by
  intro text
  induction text with
  | nil => intro _; exact ⟨[], rfl⟩
  | cons s ss ih =>
    intro h
    obtain ⟨v, hv⟩ := lookupStep_ok weight s (h s (by simp))
    obtain ⟨vs, hvs⟩ := ih (fun step hstep => h step (by simp [hstep]))
    exact ⟨v :: vs, by simp only [embLookup, hv, hvs]⟩

/-- With a non-increasing length vector and in-range token indices the whole
forward pass succeeds. -/
theorem forward_ok_of_sorted (m : LSTMModel) (text : List (List ℕ)) (lengths : List ℕ)
    (hs : sortedDescending lengths = true)
    (htok : ∀ step ∈ text, ∀ tok ∈ step, tok < m.embeddingWeight.length) :
    ∃ out, m.forward text lengths = .ok out := by
  obtain ⟨embs, hembs⟩ := embLookup_ok m.embeddingWeight text htok
  have hpack : pack_padded_sequence embs lengths
      = .ok { data := embs, batchLengths := lengths } := by
    unfold pack_padded_sequence
    rw [if_pos hs]
  unfold LSTMModel.forward
  simp only [hembs, hpack]
  exact ⟨_, rfl⟩

/-- Claim C9: LSTMModel.forward requires its length vector sorted in
non-increasing order (pack_padded_sequence is called with the default
enforce_sorted); a batch produced with sort_within_batch=True satisfies this,
so on such batches the packing step never takes its error branch and the
forward pass succeeds whenever the token indices are in range. -/
theorem sorted_batches_make_pack_succeed (lengths : List ℕ) :
    sortedDescending (sortWithinBatch lengths) = true
    ∧ (∀ input : List (List (List ℚ)),
        pack_padded_sequence input (sortWithinBatch lengths)
          = .ok { data := input, batchLengths := sortWithinBatch lengths })
    ∧ (∀ (m : LSTMModel) (text : List (List ℕ)),
        (∀ step ∈ text, ∀ tok ∈ step, tok < m.embeddingWeight.length) →
        ∃ out, m.forward text (sortWithinBatch lengths) = .ok out) := by
  have hs := sortedDescending_sortWithinBatch lengths
  refine ⟨hs, ?_, ?_⟩
  · intro input
    unfold pack_padded_sequence
    rw [if_pos hs]
  · intro m text htok
    exact forward_ok_of_sorted m text (sortWithinBatch lengths) hs htok

/-- Witness for claim C9: raw lengths [1, 3, 2] and the tiny model. -/
theorem sorted_batches_make_pack_succeed_witness :
    sortedDescending (sortWithinBatch [1, 3, 2]) = true
    ∧ pack_padded_sequence [] (sortWithinBatch [1, 3, 2])
        = .ok { data := [], batchLengths := sortWithinBatch [1, 3, 2] }
    ∧ (∀ step ∈ [[0]], ∀ tok ∈ step, tok < tinyLSTMModel.embeddingWeight.length)
    ∧ (tinyLSTMModel.forward [[0]] (sortWithinBatch [1, 3, 2])).isOk = true := by
  have htok : ∀ step ∈ [[0]], ∀ tok ∈ step, tok < tinyLSTMModel.embeddingWeight.length := by
    decide
  obtain ⟨h1, h2, h3⟩ := sorted_batches_make_pack_succeed [1, 3, 2]
  obtain ⟨out, hout⟩ := h3 tinyLSTMModel [[0]] htok
  exact ⟨h1, h2 [], htok, by rw [hout]; rfl⟩

/-- Claim C7: neither loop nor the driver validates inputs or catches
anything: an exception raised by the forward pass at any point of either loop
is returned unchanged by that loop, and an exception raised inside train_model
is returned unchanged by the driver. -/
theorem framework_exceptions_propagate {P G O : Type} (M : ModelFns P)
    (Opt : OptimizerFns P G O) :
    (∀ (p : P) (g : G) (o : O) (pre post : List Batch) (b : Batch) (n : ℕ)
       (st : TrainState P G O) (e : PyError),
      runTrainBatches M Opt (trainInitState p g o) pre = .ok st →
      M.forwardRun st.params b.text b.textLengths = .error e →
      train_model M Opt p g o { batches := pre ++ b :: post, datasetLen := n } = .error e)
    ∧ (∀ (p : P) (pre post : List Batch) (b : Batch) (n : ℕ)
         (st : TestState P) (e : PyError),
      runTestBatches M (testInitState p) pre = .ok st →
      M.forwardRun st.params b.text b.textLengths = .error e →
      test_model M p { batches := pre ++ b :: post, datasetLen := n } = .error e)
    ∧ (∀ (adam0 : O) (p : P) (g : G) (train_iter test_iter : DataLoader) (e : PyError),
      train_model M Opt p g adam0 train_iter = .error e →
      driver M Opt adam0 p g train_iter test_iter = .error e) := by
  refine ⟨?_, ?_, ?_⟩
  · intro p g o pre post b n st e hpre hf
    have hrun : runTrainBatches M Opt (trainInitState p g o) (pre ++ b :: post)
        = .error e := by
      rw [runTrainBatches_append_ok M Opt pre (b :: post) (trainInitState p g o) st hpre]
      exact runTrainBatches_error_of_step M Opt st b post e
        (trainBatchStep_error_of_forward M Opt st b e hf)
    unfold train_model
    rw [hrun]
  · intro p pre post b n st e hpre hf
    have hrun : runTestBatches M (testInitState p) (pre ++ b :: post) = .error e := by
      rw [runTestBatches_append_ok M pre (b :: post) (testInitState p) st hpre]
      exact runTestBatches_error_of_step M st b post e
        (testBatchStep_error_of_forward M st b e hf)
    unfold test_model
    rw [hrun]
  · intro adam0 p g train_iter test_iter e hd
    unfold driver
    rw [show List.range 5 = [0, 1, 2, 3, 4] from by decide]
    simp only [runEpochs, hd]

/-- Witness for claim C7: a model whose forward pass always raises. -/
theorem framework_exceptions_propagate_witness :
    (failingModelFns.forwardRun () emptyBatch.text emptyBatch.textLengths
        = .error PyError.runtimeError)
    ∧ train_model failingModelFns unitOptimizerFns () () ()
        { batches := [emptyBatch], datasetLen := 1 } = .error PyError.runtimeError
    ∧ test_model failingModelFns ()
        { batches := [emptyBatch], datasetLen := 1 } = .error PyError.runtimeError
    ∧ driver failingModelFns unitOptimizerFns () () ()
        { batches := [emptyBatch], datasetLen := 1 } oneBatchLoader
        = .error PyError.runtimeError := by
  have hf : failingModelFns.forwardRun () emptyBatch.text emptyBatch.textLengths
      = .error PyError.runtimeError := rfl
  have hpre : runTrainBatches failingModelFns unitOptimizerFns
      (trainInitState () () ()) [] = .ok (trainInitState () () ()) := rfl
  have hpreT : runTestBatches failingModelFns (testInitState ()) []
      = .ok (testInitState ()) := rfl
  have h1 := (framework_exceptions_propagate failingModelFns unitOptimizerFns).1
    () () () [] [] emptyBatch 1 (trainInitState () () ()) PyError.runtimeError hpre hf
  have h2 := (framework_exceptions_propagate failingModelFns unitOptimizerFns).2.1
    () [] [] emptyBatch 1 (testInitState ()) PyError.runtimeError hpreT hf
  have h1n : train_model failingModelFns unitOptimizerFns () () ()
      { batches := [emptyBatch], datasetLen := 1 } = .error PyError.runtimeError := by
    simpa using h1
  have h2n : test_model failingModelFns ()
      { batches := [emptyBatch], datasetLen := 1 } = .error PyError.runtimeError := by
    simpa using h2
  have h3 := (framework_exceptions_propagate failingModelFns unitOptimizerFns).2.2
    () () () { batches := [emptyBatch], datasetLen := 1 } oneBatchLoader
    PyError.runtimeError h1n
  exact ⟨hf, h1n, h2n, h3⟩

/-- A successful epoch loop appends one header, one train call on the train
iterator and one test call on the test iterator per epoch, and one test-result
pair per epoch. -/
theorem runEpochs_ok_events {P G O : Type} (M : ModelFns P) (Opt : OptimizerFns P G O)
    (train_iter test_iter : DataLoader) :
    ∀ (epochs : List ℕ) (p : P) (g : G) (o : O) (evs : List DriverEvent)
      (res : List (ℚ × ℚ)) (r : DriverResult P G O),
    runEpochs M Opt train_iter test_iter epochs p g o evs res = .ok r →
    r.events = evs ++ epochs.flatMap (fun e =>
        [DriverEvent.epochHeader e, DriverEvent.trainCall train_iter,
         DriverEvent.testCall test_iter])
    ∧ r.epochResults.length = res.length + epochs.length := by
  intro epochs
  induction epochs with
  | nil =>
    intro p g o evs res r h
    cases h
    simp
  | cons e rest ih =>
    intro p g o evs res r h
    simp only [runEpochs] at h
    cases htr : train_model M Opt p g o train_iter with
    | error err => simp only [htr] at h; cases h
    | ok tr =>
      simp only [htr] at h
      cases hte : test_model M tr.st.params test_iter with
      | error err => simp only [hte] at h; cases h
      | ok te =>
        simp only [hte] at h
        obtain ⟨he, hl⟩ := ih _ _ _ _ _ _ h
        constructor
        · rw [he, List.flatMap_cons]
          simp
        · rw [hl]
          simp
          omega

/-- Claim C3: the driver records exactly one optimizer instantiation and one
loss-function instantiation, then exactly five epochs, each calling
train_model on the train iterator first and test_model on the test iterator
second, collecting one test-result pair per epoch. -/
theorem driver_runs_five_epochs {P G O : Type} (M : ModelFns P) (Opt : OptimizerFns P G O)
    (adam0 : O) (p : P) (g : G) (train_iter test_iter : DataLoader)
    (r : DriverResult P G O) (h : driver M Opt adam0 p g train_iter test_iter = .ok r) :
    r.events = [DriverEvent.makeOptimizer, DriverEvent.makeLossFunction,
        DriverEvent.modelToDevice]
      ++ (List.range 5).flatMap (fun e =>
        [DriverEvent.epochHeader e, DriverEvent.trainCall train_iter,
         DriverEvent.testCall test_iter])
    ∧ r.events.count DriverEvent.makeOptimizer = 1
    ∧ r.events.count DriverEvent.makeLossFunction = 1
    ∧ r.epochResults.length = 5 := by
  unfold driver at h
  obtain ⟨he, hl⟩ := runEpochs_ok_events M Opt train_iter test_iter (List.range 5)
    p g adam0 _ [] r h
  refine ⟨he, ?_, ?_, by simpa using hl⟩
  · rw [he, show List.range 5 = [0, 1, 2, 3, 4] from by decide]
    simp [List.count_append, List.count_cons, List.flatMap_cons, List.count_nil]
  · rw [he, show List.range 5 = [0, 1, 2, 3, 4] from by decide]
    simp [List.count_append, List.count_cons, List.flatMap_cons, List.count_nil]

/-- Witness for claim C3: the driver on the unit model with the one-batch
loader used as both iterators. -/
theorem driver_runs_five_epochs_witness :
    (driver unitModelFns unitOptimizerFns () () () oneBatchLoader oneBatchLoader
      = .ok unitDriverResult)
    ∧ unitDriverResult.events.count DriverEvent.makeOptimizer = 1
    ∧ unitDriverResult.events.count DriverEvent.makeLossFunction = 1
    ∧ unitDriverResult.epochResults.length = 5 := by
  have h : driver unitModelFns unitOptimizerFns () () () oneBatchLoader oneBatchLoader
      = .ok unitDriverResult := by
    simp only [driver]
    rw [show List.range 5 = [0, 1, 2, 3, 4] from by decide]
    simp only [runEpochs, train_model, test_model, runTrainBatches, runTestBatches,
      trainBatchStep, testBatchStep, trainInitState, testInitState, unitModelFns,
      unitOptimizerFns, oneBatchLoader, emptyBatch, countCorrect, AccValue.add,
      AccValue.double, pyFloatDiv, unitDriverResult, unitDriverEvents]
    norm_num
  obtain ⟨_, h2, h3, h4⟩ := driver_runs_five_epochs unitModelFns unitOptimizerFns
    () () () oneBatchLoader oneBatchLoader unitDriverResult h
  exact ⟨h, h2, h3, h4⟩

/-- Claim C4: for every model and input whose length vector satisfies the
packing precondition, the forward pass equals the composition of embedding
lookup, the recurrent encoder producing a final hidden state, and the linear
layer; and with output_size = 1 (one weight row and one bias entry, as the
notebook instantiates the model) every per-element output is a single logit. -/
theorem forward_is_embed_lstm_linear (m : LSTMModel) (text : List (List ℕ))
    (lengths : List ℕ) (hs : sortedDescending lengths = true) :
    m.forward text lengths = forwardSpec m text lengths
    ∧ (m.fcWeight.length = 1 → m.fcBias.length = 1 →
        ∀ outs, m.forward text lengths = .ok outs → ∀ o ∈ outs, o.length = 1) := by
  have heq : m.forward text lengths = forwardSpec m text lengths := by
    unfold LSTMModel.forward forwardSpec
    cases he : embLookup m.embeddingWeight text with
    | error e => rfl
    | ok embs =>
      have hpack : pack_padded_sequence embs lengths
          = .ok { data := embs, batchLengths := lengths } := by
        unfold pack_padded_sequence
        rw [if_pos hs]
      simp only [hpack]
      unfold lstmRun
      simp only [List.map_map]
      rfl
  refine ⟨heq, ?_⟩
  intro hw hb outs houts o ho
  rw [heq] at houts
  unfold forwardSpec at houts
  cases he : embLookup m.embeddingWeight text with
  | error e => rw [he] at houts; cases houts
  | ok embs =>
    rw [he] at houts
    dsimp only at houts
    cases houts
    simp only [List.mem_map] at ho
    obtain ⟨hvec, _, rfl⟩ := ho
    unfold linearApply
    rw [List.length_map, List.length_zip, hw, hb]
    simp

/-- Witness for claim C4: the tiny model on a one-token text with sorted
lengths. -/
theorem forward_is_embed_lstm_linear_witness :
    sortedDescending [2, 1] = true
    ∧ tinyLSTMModel.forward [[0]] [2, 1] = forwardSpec tinyLSTMModel [[0]] [2, 1] := by
  have hs : sortedDescending [2, 1] = true := by decide
  exact ⟨hs, (forward_is_embed_lstm_linear tinyLSTMModel [[0]] [2, 1] hs).1⟩

/-- Under an optimizer step that leaves the parameters unchanged, one train
batch body and one test batch body agree on parameters and statistics, or
fail with the same exception. -/
theorem batchStep_agree {P G O : Type} (M : ModelFns P) (Opt : OptimizerFns P G O)
    (hid : ∀ (os : O) (ps : P) (gs : G), (Opt.optStep os ps gs).2 = ps)
    (stT : TrainState P G O) (stE : TestState P) (b : Batch)
    (hag : statesAgree stT stE) :
    resultsAgree (trainBatchStep M Opt stT b) (testBatchStep M stE b) := by
  obtain ⟨hp, hl, ha⟩ := hag
  unfold trainBatchStep testBatchStep
  dsimp only
  rw [hp]
  cases hf : M.forwardRun stE.params b.text b.textLengths with
  | error e =>
    unfold resultsAgree
    rfl
  | ok outputs =>
    dsimp only
    cases hl2 : M.lossFn outputs b.label with
    | error e =>
      unfold resultsAgree
      rfl
    | ok lossVal =>
      dsimp only
      unfold resultsAgree statesAgree
      refine ⟨?_, ?_, ?_⟩
      · dsimp only
        rw [hid]
      · dsimp only
        rw [hl]
      · dsimp only
        rw [ha]

/-- Under an identity-on-parameters optimizer step the two batch loops agree
from agreeing states. -/
theorem runBatches_agree {P G O : Type} (M : ModelFns P) (Opt : OptimizerFns P G O)
    (hid : ∀ (os : O) (ps : P) (gs : G), (Opt.optStep os ps gs).2 = ps) :
    ∀ (bs : List Batch) (stT : TrainState P G O) (stE : TestState P),
    statesAgree stT stE →
    resultsAgree (runTrainBatches M Opt stT bs) (runTestBatches M stE bs) := by
  intro bs
  induction bs with
  | nil =>
    intro stT stE hag
    exact hag
  | cons b rest ih =>
    intro stT stE hag
    have hstep := batchStep_agree M Opt hid stT stE b hag
    unfold runTrainBatches runTestBatches
    cases h1 : trainBatchStep M Opt stT b with
    | error e1 =>
      cases h2 : testBatchStep M stE b with
      | error e2 =>
        rw [h1, h2] at hstep
        exact hstep
      | ok s2 =>
        rw [h1, h2] at hstep
        exact absurd hstep (by simp [resultsAgree])
    | ok s1 =>
      cases h2 : testBatchStep M stE b with
      | error e2 =>
        rw [h1, h2] at hstep
        exact absurd hstep (by simp [resultsAgree])
      | ok s2 =>
        rw [h1, h2] at hstep
        exact ih s1 s2 hstep

/-- Claim C6: the evaluation loop is symmetric to the training loop: from the
same parameters and the same batches, with an optimizer step that does not
change the parameters, train_model and test_model produce the same total
loss, the same total accuracy and the same final parameters, or fail with the
same exception; the per-batch statistics formulas are identical, and the two
calls differ only in the gradient and parameter-update effects. -/
theorem eval_loop_symmetric {P G O : Type} (M : ModelFns P) (Opt : OptimizerFns P G O)
    (p : P) (g : G) (o : O) (loader : DataLoader)
    (hid : ∀ (os : O) (ps : P) (gs : G), (Opt.optStep os ps gs).2 = ps) :
    Except.map (fun r : TrainOutcome P G O => (r.totalLoss, r.totalAcc, r.st.params))
        (train_model M Opt p g o loader)
      = Except.map (fun r : TestOutcome P => (r.totalLoss, r.totalAcc, r.st.params))
        (test_model M p loader) := by
  have hag : statesAgree (trainInitState p g o) (testInitState p) := ⟨rfl, rfl, rfl⟩
  have hrun := runBatches_agree M Opt hid loader.batches _ _ hag
  unfold train_model test_model
  cases h1 : runTrainBatches M Opt (trainInitState p g o) loader.batches with
  | error e1 =>
    cases h2 : runTestBatches M (testInitState p) loader.batches with
    | error e2 =>
      rw [h1, h2] at hrun
      have he : e1 = e2 := hrun
      rw [he]
      rfl
    | ok s2 =>
      rw [h1, h2] at hrun
      exact absurd hrun (by simp [resultsAgree])
  | ok s1 =>
    cases h2 : runTestBatches M (testInitState p) loader.batches with
    | error e2 =>
      rw [h1, h2] at hrun
      exact absurd hrun (by simp [resultsAgree])
    | ok s2 =>
      rw [h1, h2] at hrun
      obtain ⟨hp, hl, ha⟩ := hrun
      dsimp only
      rw [hl, ha, hp]
      cases hdiv : pyFloatDiv s2.currentLoss loader.datasetLen with
      | error e => rfl
      | ok tl =>
        dsimp only
        cases hdb : s2.currentAcc.double with
        | error e => rfl
        | ok aD =>
          dsimp only
          rfl

/-- Witness for claim C6: the unit model, whose optimizer step is the
identity on its unit parameters, on the one-batch loader. -/
theorem eval_loop_symmetric_witness :
    (∀ (os ps gs : Unit), (unitOptimizerFns.optStep os ps gs).2 = ps)
    ∧ Except.map
        (fun r : TrainOutcome Unit Unit Unit => (r.totalLoss, r.totalAcc, r.st.params))
        (train_model unitModelFns unitOptimizerFns () () () oneBatchLoader)
      = Except.map (fun r : TestOutcome Unit => (r.totalLoss, r.totalAcc, r.st.params))
        (test_model unitModelFns () oneBatchLoader) := by
  have hid : ∀ (os ps gs : Unit), (unitOptimizerFns.optStep os ps gs).2 = ps := by
    intro os ps gs
    rfl
  exact ⟨hid, eval_loop_symmetric unitModelFns unitOptimizerFns () () ()
    oneBatchLoader hid⟩

end SentimentAnalysis
